import Mathlib

/-
  Shallow embedding of the client-side shopping-cart module
  (frontend/js/cart.js, the Render/cookie variant, and the JWT/localhost
  variant of the same file) together with theorems about its behaviour.

  Modelling conventions:
  - Each JavaScript function becomes a pure Lean function from its
    arguments plus an explicit environment (presence of the stored JWT
    token, the outcome of the single fetch exchange it performs, the
    result of a confirm prompt, presence of optional globals) to its
    return value paired with the ordered list of observable effects it
    performs (console writes, DOM notifications, HTTP requests, token
    eviction, redirects, event dispatches).
  - A fetch exchange either throws (FetchOutcome.netError), or yields a
    response with an HTTP status and a body; a body that fails to parse
    as JSON (response.json() throwing) is modelled as Option.none.
  - JavaScript numbers holding prices and quantities are modelled as Int;
    strings as String; absent (undefined/null) fields as Option.
-/

/-- A cart line item as stored in the backend cart document. -/
structure CartItem where
  productId : Int
  name : String
  price : Int
  image : String
  quantity : Int
  size : Option String
  scent : Option String
deriving DecidableEq, Repr

/-- JSON body of a cart API response: may carry an items array and/or a
message string. -/
structure RespBody where
  items : Option (List CartItem)
  message : Option String
deriving DecidableEq, Repr

/-- Outcome of one fetch exchange: the transport throws, or a response
arrives with a status code and a body (none when response.json() would
throw). -/
inductive FetchOutcome where
  | netError : FetchOutcome
  | response : Nat → Option RespBody → FetchOutcome
deriving DecidableEq, Repr

/-- response.ok: status in the 2xx range. -/
def statusOk (s : Nat) : Bool :=
  decide (200 ≤ s ∧ s < 300)

/-- Optional size/scent option fields attached to a cart mutation. -/
structure ItemOptions where
  size : Option String
  scent : Option String
deriving DecidableEq, Repr

/-- The empty options object passed by default. -/
def emptyOptions : ItemOptions := ⟨none, none⟩

/-- Payload of the JWT variant upsert (POST /api/cart). -/
structure UpsertPayload where
  productId : Int
  name : String
  price : Int
  image : String
  quantity : Int
  size : Option String
  scent : Option String
deriving DecidableEq, Repr

/-- Payload of the Render variant add (POST /api/cart/add): no image field. -/
structure AddPayload where
  productId : Int
  name : String
  price : Int
  quantity : Int
  size : Option String
  scent : Option String
deriving DecidableEq, Repr

/-- HTTP methods used by the adapters. -/
inductive HttpMethod where
  | get | post | put | delete
deriving DecidableEq, Repr

/-- Request body variants sent by the adapters. -/
inductive ReqBody where
  | noBody : ReqBody
  | upsertBody : UpsertPayload → ReqBody
  | addBody : AddPayload → ReqBody
  | optionsBody : ItemOptions → ReqBody
deriving DecidableEq, Repr

/-- One observable effect performed by a cart function, in program order. -/
inductive Effect where
  | consoleLog : String → Effect
  | consoleError : String → Effect
  | showMessage : String → String → Effect
  | notifCreate : String → String → Effect
  | notifFadeAt : Nat → Effect
  | notifRemoveAt : Nat → Effect
  | request : HttpMethod → String → ReqBody → Effect
  | removeToken : Effect
  | redirectTo : String → Effect
  | dispatchCartUpdated : Effect
  | callUpdateCartCount : Effect
  | callFetchCart : Effect
  | confirmPrompt : String → Effect
deriving DecidableEq, Repr

/-- Is the effect an HTTP request? -/
def Effect.isRequest : Effect → Bool
  | Effect.request _ _ _ => true
  | _ => false

/-- Is the effect a user-facing displayMessage call? -/
def Effect.isShowMessage : Effect → Bool
  | Effect.showMessage _ _ => true
  | _ => false

/-- Is the effect a redirect of the page? -/
def Effect.isRedirect : Effect → Bool
  | Effect.redirectTo _ => true
  | _ => false

/-- Is the effect the cartUpdated event dispatch? -/
def Effect.isDispatch : Effect → Bool
  | Effect.dispatchCartUpdated => true
  | _ => false

/-- The quantity carried by an upsert/add request body, if the effect is
one. -/
def Effect.upsertQuantity : Effect → Option Int
  | Effect.request _ _ (ReqBody.upsertBody p) => some p.quantity
  | Effect.request _ _ (ReqBody.addBody p) => some p.quantity
  | _ => none

/-- All quantities sent in upsert/add payloads among a list of effects. -/
def sentUpsertQuantities (l : List Effect) : List Int :=
  l.filterMap Effect.upsertQuantity

/-- calculateCartTotal: cartItems.reduce((acc, item) =>
acc + item.price * item.quantity, 0). Identical in both variants. -/
def calculateCartTotal (cartItems : List CartItem) : Int :=
  cartItems.foldl (fun acc item => acc + item.price * item.quantity) 0

/-- Lifecycle states of one notification element. -/
inductive NotifState where
  | created | visible | fading | removed
deriving DecidableEq, Repr

/-- Time-stamped lifecycle of one notification: created and made visible
at time 0, fading starts after the delay, removal follows the fade. -/
def notifTimeline (delay fade : Nat) : List (Nat × NotifState) :=
  [(0, NotifState.created), (0, NotifState.visible),
   (delay, NotifState.fading), (delay + fade, NotifState.removed)]

namespace Render

/-- Delay before fade in the Render variant: setTimeout(..., 5000). -/
def notifDelayMs : Nat := 5000

/-- Fade duration in the Render variant: inner setTimeout(..., 300),
matching the duration-300 CSS transition. -/
def notifFadeMs : Nat := 300

/-- displayMessage of the Render variant: logs to the console when the
message-container element is absent, otherwise prepends a banner that
fades after 5000 ms and is removed 300 ms later. -/
def displayMessage (message mtype : String) (containerPresent : Bool) :
    List Effect :=
  if containerPresent then
    [Effect.notifCreate message mtype,
     Effect.notifFadeAt notifDelayMs,
     Effect.notifRemoveAt (notifDelayMs + notifFadeMs)]
  else
    [Effect.consoleLog ("[Message: " ++ mtype ++ "] " ++ message)]

end Render

namespace Jwt

/-- Delay before fade in the JWT variant: setTimeout(..., 3000). -/
def notifDelayMs : Nat := 3000

/-- Fade duration in the JWT variant: the duration-300 CSS transition,
whose transitionend event removes the element. -/
def notifFadeMs : Nat := 300

/-- displayMessage of the JWT variant: logs to the console when the
message-container element is absent, otherwise appends a banner that
fades after 3000 ms and is removed when its 300 ms transition ends. -/
def displayMessage (message mtype : String) (containerPresent : Bool) :
    List Effect :=
  if containerPresent then
    [Effect.notifCreate message mtype,
     Effect.notifFadeAt notifDelayMs,
     Effect.notifRemoveAt (notifDelayMs + notifFadeMs)]
  else
    [Effect.consoleLog ("[Message: " ++ mtype ++ "] " ++ message)]

end Jwt

namespace Jwt

/-- getAuthHeaders: reads userToken from localStorage; a missing (or
empty, hence falsy) token yields a login prompt plus a redirect to
auth.html and returns null; otherwise returns the headers object with
the bearer credential and performs no effect. -/
def getAuthHeaders (token : Option String) :
    Option (List (String × String)) × List Effect :=
  match token with
  | none =>
      (none, [Effect.showMessage "You must be logged in to manage your cart." "error",
              Effect.redirectTo "auth.html"])
  | some t =>
      if t == "" then
        (none, [Effect.showMessage "You must be logged in to manage your cart." "error",
                Effect.redirectTo "auth.html"])
      else
        (some [("Content-Type", "application/json"),
               ("Authorization", "Bearer " ++ t)], [])

/-- getCart of the JWT variant: with no credential returns [] after the
auth prompt; otherwise issues GET /api/cart, parses the body (a parse
failure lands in the catch), and returns data.items or [] on ok,
[] with a console error on a non-2xx status, and [] with a console
error plus a user-facing message when the exchange throws. -/
def getCart (token : Option String) (net : FetchOutcome) :
    List CartItem × List Effect :=
  match getAuthHeaders token with
  | (none, eff) => ([], eff)
  | (some _, eff) =>
    let req := Effect.request HttpMethod.get "/api/cart" ReqBody.noBody
    match net with
    | FetchOutcome.netError =>
        ([], eff ++ [req, Effect.consoleError "Network error fetching cart:",
                     Effect.showMessage "Could not connect to cart service." "error"])
    | FetchOutcome.response s b =>
      match b with
      | none =>
          ([], eff ++ [req, Effect.consoleError "Network error fetching cart:",
                       Effect.showMessage "Could not connect to cart service." "error"])
      | some body =>
          if statusOk s then
            (body.items.getD [], eff ++ [req])
          else
            ([], eff ++ [req, Effect.consoleError "Failed to fetch cart from server:"])

/-- removeFromCart: with no credential returns false after the auth
prompt; otherwise issues DELETE /api/cart/:productId with the options in
the body; on ok shows a message, dispatches cartUpdated and returns
true; on a non-2xx status shows the server message and returns false;
when the exchange or the body parse throws, logs and shows a network
error and returns false. -/
def removeFromCart (token : Option String) (productId : Int)
    (options : ItemOptions) (net : FetchOutcome) : Bool × List Effect :=
  match getAuthHeaders token with
  | (none, eff) => (false, eff)
  | (some _, eff) =>
    let req := Effect.request HttpMethod.delete
      ("/api/cart/" ++ toString productId) (ReqBody.optionsBody options)
    match net with
    | FetchOutcome.netError =>
        (false, eff ++ [req, Effect.consoleError "Network error removing item:",
                        Effect.showMessage "Network error removing item." "error"])
    | FetchOutcome.response s b =>
      match b with
      | none =>
          (false, eff ++ [req, Effect.consoleError "Network error removing item:",
                          Effect.showMessage "Network error removing item." "error"])
      | some body =>
          if statusOk s then
            (true, eff ++ [req, Effect.showMessage "Item removed from cart." "info",
                           Effect.dispatchCartUpdated])
          else
            (false, eff ++ [req,
              Effect.showMessage
                ("Error removing item: " ++ body.message.getD "Server error.") "error"])

/-- updateCartItem: with no credential returns false after the auth
prompt; a quantity below 1 is delegated wholly to removeFromCart;
otherwise issues POST /api/cart with the upsert payload; on ok shows a
message, dispatches cartUpdated and returns true; on a non-2xx status
shows the server message and returns false; when the exchange or the
body parse throws, logs and shows a network error and returns false. -/
def updateCartItem (token : Option String) (productId : Int) (name : String)
    (price : Int) (image : String) (quantity : Int) (options : ItemOptions)
    (net : FetchOutcome) : Bool × List Effect :=
  match getAuthHeaders token with
  | (none, eff) => (false, eff)
  | (some _, eff) =>
    if quantity < 1 then
      removeFromCart token productId options net
    else
      let payload : UpsertPayload :=
        ⟨productId, name, price, image, quantity, options.size, options.scent⟩
      let req := Effect.request HttpMethod.post "/api/cart"
        (ReqBody.upsertBody payload)
      match net with
      | FetchOutcome.netError =>
          (false, eff ++ [req, Effect.consoleError "Network error updating cart:",
                          Effect.showMessage "Network error updating cart." "error"])
      | FetchOutcome.response s b =>
        match b with
        | none =>
            (false, eff ++ [req, Effect.consoleError "Network error updating cart:",
                            Effect.showMessage "Network error updating cart." "error"])
        | some body =>
            if statusOk s then
              (true, eff ++ [req,
                Effect.showMessage
                  ("Cart updated! " ++ body.message.getD "undefined") "success",
                Effect.dispatchCartUpdated])
            else
              (false, eff ++ [req,
                Effect.showMessage
                  ("Error updating cart: " ++ body.message.getD "Server error.") "error"])

/-- clearCart: with no credential returns false after the auth prompt;
otherwise issues DELETE /api/cart/clear; on ok shows a message,
dispatches cartUpdated and returns true; on a non-2xx status shows the
server message and returns false; when the exchange or the body parse
throws, logs and shows a network error and returns false. -/
def clearCart (token : Option String) (net : FetchOutcome) :
    Bool × List Effect :=
  match getAuthHeaders token with
  | (none, eff) => (false, eff)
  | (some _, eff) =>
    let req := Effect.request HttpMethod.delete "/api/cart/clear" ReqBody.noBody
    match net with
    | FetchOutcome.netError =>
        (false, eff ++ [req, Effect.consoleError "Network error clearing cart:",
                        Effect.showMessage "Network error clearing cart." "error"])
    | FetchOutcome.response s b =>
      match b with
      | none =>
          (false, eff ++ [req, Effect.consoleError "Network error clearing cart:",
                          Effect.showMessage "Network error clearing cart." "error"])
      | some body =>
          if statusOk s then
            (true, eff ++ [req, Effect.showMessage "Cart cleared successfully." "info",
                           Effect.dispatchCartUpdated])
          else
            (false, eff ++ [req,
              Effect.showMessage
                ("Error clearing cart: " ++ body.message.getD "Server error.") "error"])

/-- A product object as passed to addToCart from the product pages. -/
structure Product where
  id : Int
  name : String
  price : Int
  image : String
deriving DecidableEq, Repr

/-- addToCart wrapper: forwards the product fields, the quantity and the
options to updateCartItem. -/
def addToCart (token : Option String) (product : Product) (quantity : Int)
    (options : ItemOptions) (net : FetchOutcome) : Bool × List Effect :=
  updateCartItem token product.id product.name product.price product.image
    quantity options net

/-- addToCart invoked without an explicit quantity or options: the
declaration defaults quantity to 1 and options to the empty object. -/
def addToCartDefaults (token : Option String) (product : Product)
    (net : FetchOutcome) : Bool × List Effect :=
  addToCart token product 1 emptyOptions net

end Jwt

/-- JavaScript item.quantity || 1: undefined and 0 are falsy and default
to 1; any other number (negative included) passes through. -/
def jsOrOne (q : Option Int) : Int :=
  match q with
  | none => 1
  | some q => if q == 0 then 1 else q

/-- JavaScript item.size || null: undefined and the empty string are
falsy and become null; any other string passes through. -/
def jsOrNull (s : Option String) : Option String :=
  match s with
  | none => none
  | some s => if s == "" then none else some s

namespace Render

/-- The item object handed to the Render variant addToCartAPI; quantity,
size and scent may be absent. -/
structure ItemIn where
  productId : Int
  name : String
  price : Int
  quantity : Option Int
  size : Option String
  scent : Option String
deriving DecidableEq, Repr

/-- getCartAPI of the Render variant: issues GET /api/cart with no
credential check; on ok parses the body (a parse failure lands in the
catch) and returns cartData.items or []; on 401 logs, evicts the stored
token and shows a session-expired message; returns [] on every non-ok
status; on a thrown exchange logs a console error and returns []. -/
def getCartAPI (net : FetchOutcome) : List CartItem × List Effect :=
  let req := Effect.request HttpMethod.get "/api/cart" ReqBody.noBody
  match net with
  | FetchOutcome.netError =>
      ([], [req, Effect.consoleError "Network error fetching cart:"])
  | FetchOutcome.response s b =>
      if statusOk s then
        match b with
        | some body => (body.items.getD [], [req])
        | none => ([], [req, Effect.consoleError "Network error fetching cart:"])
      else if s == 401 then
        ([], [req, Effect.consoleError "Authentication failed. Token expired or invalid.",
              Effect.removeToken,
              Effect.showMessage "Session expired. Please log in again." "error"])
      else
        ([], [req])

/-- addToCartAPI of the Render variant: builds the payload with
quantity = item.quantity || 1 and size/scent coerced to null when falsy,
issues POST /api/cart/add, parses the body before the ok check; on ok
shows a success message and refreshes the header cart count; on a
non-2xx status shows the server message; when the exchange or the body
parse throws, logs and shows a network error. -/
def addToCartAPI (item : ItemIn) (net : FetchOutcome) : List Effect :=
  let payload : AddPayload :=
    ⟨item.productId, item.name, item.price, jsOrOne item.quantity,
     jsOrNull item.size, jsOrNull item.scent⟩
  let req := Effect.request HttpMethod.post "/api/cart/add"
    (ReqBody.addBody payload)
  match net with
  | FetchOutcome.netError =>
      [req, Effect.consoleError "Network error adding item:",
       Effect.showMessage "Network error. Check your backend connection." "error"]
  | FetchOutcome.response s b =>
    match b with
    | none =>
        [req, Effect.consoleError "Network error adding item:",
         Effect.showMessage "Network error. Check your backend connection." "error"]
    | some body =>
        if statusOk s then
          [req, Effect.showMessage ("Added " ++ payload.name ++ " to cart.") "success",
           Effect.callUpdateCartCount]
        else
          [req, Effect.showMessage
            ("Failed to add item: " ++ body.message.getD "Server error.") "error"]

/-- clearCartAPI of the Render variant: first asks for confirmation and
returns at once when declined; otherwise issues DELETE /api/cart/clear,
parses the body before the ok check; on ok shows a message, re-renders
the cart page when window.fetchCart is defined and refreshes the cart
count; on a non-2xx status shows the server message; when the exchange
or the body parse throws, logs and shows a network error. -/
def clearCartAPI (confirmed : Bool) (fetchCartDefined : Bool)
    (net : FetchOutcome) : List Effect :=
  let prompt := Effect.confirmPrompt "Are you sure you want to clear your cart?"
  if !confirmed then
    [prompt]
  else
    let req := Effect.request HttpMethod.delete "/api/cart/clear" ReqBody.noBody
    prompt ::
      (match net with
      | FetchOutcome.netError =>
          [req, Effect.consoleError "Network error clearing cart:",
           Effect.showMessage "Network error. Could not clear cart." "error"]
      | FetchOutcome.response s b =>
        match b with
        | none =>
            [req, Effect.consoleError "Network error clearing cart:",
             Effect.showMessage "Network error. Could not clear cart." "error"]
        | some body =>
            if statusOk s then
              [req, Effect.showMessage "Cart cleared successfully." "info"]
                ++ (if fetchCartDefined then [Effect.callFetchCart] else [])
                ++ [Effect.callUpdateCartCount]
            else
              [req, Effect.showMessage
                ("Clear cart failed: " ++ body.message.getD "Server error.") "error"])

end Render

/-- Folding price*quantity starting from any accumulator equals the
accumulator plus the mapped sum. -/
theorem foldl_price_sum (l : List CartItem) : ∀ acc : Int,
    l.foldl (fun acc item => acc + item.price * item.quantity) acc
      = acc + (l.map (fun item => item.price * item.quantity)).sum := by
  induction l with
  | nil => intro acc; simp
  | cons h t ih => intro acc; simp [ih, add_assoc]

/-- Claim C1: calculateCartTotal returns exactly the sum of
price * quantity over all entries, and 0 on the empty list. -/
theorem calculateCartTotal_is_sum :
    (∀ cart : List CartItem,
        calculateCartTotal cart
          = (cart.map (fun item => item.price * item.quantity)).sum)
      ∧ calculateCartTotal [] = 0 := by
  refine ⟨fun cart => ?_, rfl⟩
  simpa using foldl_price_sum cart 0

/-- Claim C7: when the message container is absent, displayMessage (both
variants) performs exactly one console log of the message and returns,
with no notification element created and no other effect. -/
theorem displayMessage_absent_container_logs (message mtype : String) :
    Render.displayMessage message mtype false
        = [Effect.consoleLog ("[Message: " ++ mtype ++ "] " ++ message)]
      ∧ Jwt.displayMessage message mtype false
        = [Effect.consoleLog ("[Message: " ++ mtype ++ "] " ++ message)] := by
  exact ⟨rfl, rfl⟩

/-- Evaluating getAuthHeaders on a concrete non-empty token. -/
theorem getAuthHeaders_tok :
    Jwt.getAuthHeaders (some "tok")
      = (some [("Content-Type", "application/json"),
               ("Authorization", "Bearer tok")], []) := by
  rfl

/-- No removal call ever carries an upsert/add payload. -/
theorem sentUpsertQuantities_removeFromCart (token : Option String)
    (productId : Int) (options : ItemOptions) (net : FetchOutcome) :
    sentUpsertQuantities (Jwt.removeFromCart token productId options net).2
      = [] := by
  cases token with
  | none => rfl
  | some t =>
    cases net with
    | netError =>
      by_cases ht : (t == "") <;>
        simp [Jwt.removeFromCart, Jwt.getAuthHeaders, ht, sentUpsertQuantities,
              Effect.upsertQuantity]
    | response s b =>
      cases b with
      | none =>
        by_cases ht : (t == "") <;>
          simp [Jwt.removeFromCart, Jwt.getAuthHeaders, ht, sentUpsertQuantities,
                Effect.upsertQuantity]
      | some body =>
        by_cases ht : (t == "") <;> by_cases hs : statusOk s <;>
          simp [Jwt.removeFromCart, Jwt.getAuthHeaders, ht, hs,
                sentUpsertQuantities, Effect.upsertQuantity]

/-- Claim C8: every displayed notification follows the strictly linear,
time-driven lifecycle created, visible, fading, removed with
nondecreasing time stamps and no backward transition: both variants
create the banner immediately, start the fade after a fixed delay that
lies between 3000 and 5000 milliseconds (5000 in the Render variant,
3000 in the JWT variant), and remove the element a positive fade
duration after the fade starts; the effect list is a fixed function of
the message, with no interaction input that could cancel it. -/
theorem displayMessage_linear_timeline (message mtype : String) :
    Render.displayMessage message mtype true
        = [Effect.notifCreate message mtype,
           Effect.notifFadeAt Render.notifDelayMs,
           Effect.notifRemoveAt (Render.notifDelayMs + Render.notifFadeMs)]
    ∧ Jwt.displayMessage message mtype true
        = [Effect.notifCreate message mtype,
           Effect.notifFadeAt Jwt.notifDelayMs,
           Effect.notifRemoveAt (Jwt.notifDelayMs + Jwt.notifFadeMs)]
    ∧ (notifTimeline Render.notifDelayMs Render.notifFadeMs).map Prod.snd
        = [NotifState.created, NotifState.visible, NotifState.fading,
           NotifState.removed]
    ∧ (notifTimeline Jwt.notifDelayMs Jwt.notifFadeMs).map Prod.snd
        = [NotifState.created, NotifState.visible, NotifState.fading,
           NotifState.removed]
    ∧ List.Chain' (fun a b => a.1 ≤ b.1)
        (notifTimeline Render.notifDelayMs Render.notifFadeMs)
    ∧ List.Chain' (fun a b => a.1 ≤ b.1)
        (notifTimeline Jwt.notifDelayMs Jwt.notifFadeMs)
    ∧ 3000 ≤ Render.notifDelayMs ∧ Render.notifDelayMs ≤ 5000
    ∧ 3000 ≤ Jwt.notifDelayMs ∧ Jwt.notifDelayMs ≤ 5000
    ∧ 0 < Render.notifFadeMs ∧ 0 < Jwt.notifFadeMs := by
  refine ⟨rfl, rfl, by decide, by decide, ?_, ?_, by decide, by decide,
          by decide, by decide, by decide, by decide⟩
  · norm_num [notifTimeline, List.chain'_cons, Render.notifDelayMs,
      Render.notifFadeMs]
  · norm_num [notifTimeline, List.chain'_cons, Jwt.notifDelayMs,
      Jwt.notifFadeMs]

/-- Claim C10: clearCartAPI asks for confirmation first; when the
confirmation is declined the call performs exactly the prompt and
nothing else: no HTTP request, no displayed message, no event dispatch,
no cart-count refresh. The prompt is always the first effect. -/
theorem clearCartAPI_declined_is_noop (fetchCartDefined : Bool)
    (net : FetchOutcome) :
    Render.clearCartAPI false fetchCartDefined net
        = [Effect.confirmPrompt "Are you sure you want to clear your cart?"]
    ∧ ((Render.clearCartAPI false fetchCartDefined net).any
        Effect.isRequest) = false
    ∧ ((Render.clearCartAPI false fetchCartDefined net).any
        Effect.isShowMessage) = false
    ∧ ((Render.clearCartAPI false fetchCartDefined net).any
        Effect.isDispatch) = false
    ∧ (∀ c : Bool, (Render.clearCartAPI c fetchCartDefined net).head?
        = some (Effect.confirmPrompt
            "Are you sure you want to clear your cart?")) := by
  refine ⟨rfl, rfl, rfl, rfl, fun c => ?_⟩
  cases c with
  | false => rfl
  | true => simp [Render.clearCartAPI]

/-- Claim C2 counterexample: the Render variant addToCartAPI does not
redirect a non-positive quantity to the removal operation: a quantity
of -1 is sent unchanged in the add/upsert payload, no removal request
is issued, and a quantity of 0 is coerced to 1 and sent as an upsert
rather than removed. -/
theorem addToCartAPI_sends_nonpositive_quantity :
    sentUpsertQuantities
        (Render.addToCartAPI ⟨7, "Candle", 500, some (-1), none, none⟩
          (FetchOutcome.response 200 (some ⟨none, some "ok"⟩)))
      = [-1]
    ∧ (-1 : Int) ≤ 0
    ∧ ((Render.addToCartAPI ⟨7, "Candle", 500, some (-1), none, none⟩
          (FetchOutcome.response 200 (some ⟨none, some "ok"⟩))).any
        (fun e => e matches Effect.request HttpMethod.delete _ _)) = false
    ∧ sentUpsertQuantities
        (Render.addToCartAPI ⟨7, "Candle", 500, some 0, none, none⟩
          (FetchOutcome.response 200 (some ⟨none, some "ok"⟩)))
      = [1] := by
  exact ⟨by decide, by decide, by decide, by decide⟩

/-- Claim C2 (amended): in the JWT variant, updateCartItem given a
non-positive quantity delegates the whole call to removeFromCart, so no
add/upsert payload is sent; the Render variant addToCartAPI performs no
such redirection and can send non-positive quantities. -/
theorem updateCartItem_nonpositive_redirects_to_removal
    (token : Option String) (productId : Int) (name : String) (price : Int)
    (image : String) (quantity : Int) (options : ItemOptions)
    (net : FetchOutcome) (h : quantity ≤ 0) :
    Jwt.updateCartItem token productId name price image quantity options net
        = Jwt.removeFromCart token productId options net
    ∧ sentUpsertQuantities
        (Jwt.updateCartItem token productId name price image quantity
          options net).2
      = [] := by
  have hq : quantity < 1 := by omega
  have heq : Jwt.updateCartItem token productId name price image quantity
      options net = Jwt.removeFromCart token productId options net := by
    cases token with
    | none => rfl
    | some t =>
      by_cases ht : (t == "")
      · simp [Jwt.updateCartItem, Jwt.removeFromCart, Jwt.getAuthHeaders, ht]
      · simp [Jwt.updateCartItem, Jwt.getAuthHeaders, ht, hq]
  rw [heq]
  exact ⟨rfl, sentUpsertQuantities_removeFromCart token productId options net⟩

/-- Concrete instantiation of the amended C2 theorem at quantity -2. -/
theorem updateCartItem_nonpositive_redirects_to_removal_witness :
    Jwt.updateCartItem (some "tok") 3 "Candle" 500 "img.png" (-2)
          emptyOptions (FetchOutcome.response 200 (some ⟨none, some "ok"⟩))
        = Jwt.removeFromCart (some "tok") 3 emptyOptions
            (FetchOutcome.response 200 (some ⟨none, some "ok"⟩))
    ∧ sentUpsertQuantities
        (Jwt.updateCartItem (some "tok") 3 "Candle" 500 "img.png" (-2)
          emptyOptions
          (FetchOutcome.response 200 (some ⟨none, some "ok"⟩))).2
      = [] :=
  updateCartItem_nonpositive_redirects_to_removal (some "tok") 3 "Candle"
    500 "img.png" (-2) emptyOptions
    (FetchOutcome.response 200 (some ⟨none, some "ok"⟩)) (by decide)

/-- A 401 status is not ok. -/
theorem statusOk_401 : statusOk 401 = false := by decide

/-- Claim C3 counterexample: on a 401 not-authenticated response the
Render variant getCartAPI removes the stored credential and returns the
empty cart, but performs no redirect to a login surface — it only
displays a session-expired message. -/
theorem getCartAPI_401_no_redirect :
    (Render.getCartAPI
        (FetchOutcome.response 401 (some ⟨none, some "Not authorized"⟩))).1
      = []
    ∧ Effect.removeToken ∈
        (Render.getCartAPI
          (FetchOutcome.response 401 (some ⟨none, some "Not authorized"⟩))).2
    ∧ ((Render.getCartAPI
          (FetchOutcome.response 401 (some ⟨none, some "Not authorized"⟩))).2.any
        Effect.isRedirect) = false := by
  exact ⟨rfl, by decide, by decide⟩

/-- Claim C3 (amended): on a 401 response the Render variant evicts the
local credential, shows a session-expired message and returns the empty
cart without redirecting; the JWT variant returns the empty cart
leaving the credential in place and without redirecting — its redirect
to the login surface fires only when the credential is already absent
before the request. -/
theorem getCart_401_behaviour (b : Option RespBody) :
    (Render.getCartAPI (FetchOutcome.response 401 b)).1 = []
    ∧ Effect.removeToken ∈ (Render.getCartAPI (FetchOutcome.response 401 b)).2
    ∧ Effect.showMessage "Session expired. Please log in again." "error"
        ∈ (Render.getCartAPI (FetchOutcome.response 401 b)).2
    ∧ ((Render.getCartAPI (FetchOutcome.response 401 b)).2.any
        Effect.isRedirect) = false
    ∧ (Jwt.getCart (some "tok") (FetchOutcome.response 401 b)).1 = []
    ∧ Effect.removeToken ∉
        (Jwt.getCart (some "tok") (FetchOutcome.response 401 b)).2
    ∧ ((Jwt.getCart (some "tok") (FetchOutcome.response 401 b)).2.any
        Effect.isRedirect) = false
    ∧ ((Jwt.getCart none (FetchOutcome.response 401 b)).2.any
        Effect.isRedirect) = true := by
  cases b with
  | none =>
      exact ⟨rfl, by decide, by decide, by decide, rfl, by decide, by decide,
             by decide⟩
  | some body =>
      refine ⟨rfl, ?_, ?_, ?_, ?_, ?_, ?_, rfl⟩
      · simp [Render.getCartAPI, statusOk_401]
      · simp [Render.getCartAPI, statusOk_401]
      · simp [Render.getCartAPI, statusOk_401, Effect.isRedirect]
      · simp [Jwt.getCart, getAuthHeaders_tok, statusOk_401]
      · simp [Jwt.getCart, getAuthHeaders_tok, statusOk_401]
      · simp [Jwt.getCart, getAuthHeaders_tok, statusOk_401, Effect.isRedirect]

/-- Claim C4 counterexample: when the fetch exchange throws, the Render
variant getCartAPI returns the empty cart after only a console error —
no user-facing message is displayed, contradicting that every remote
operation reports a user-facing error on network failure. -/
theorem getCartAPI_netError_no_user_message :
    (Render.getCartAPI FetchOutcome.netError).1 = []
    ∧ ((Render.getCartAPI FetchOutcome.netError).2.any
        Effect.isShowMessage) = false
    ∧ Effect.consoleError "Network error fetching cart:"
        ∈ (Render.getCartAPI FetchOutcome.netError).2 := by
  exact ⟨rfl, by decide, by decide⟩

/-- Number of HTTP requests among the effects of one call. -/
def requestCount (l : List Effect) : Nat :=
  (l.filter Effect.isRequest).length

/-- Claim C4 (amended): on a thrown network exchange every cart
operation issues exactly one request (the operation is abandoned, never
retried) and yields its safe fallback — the empty cart for the fetch
operations, false for the mutations; every operation except the Render
variant getCartAPI also displays a user-facing error message, while
getCartAPI only logs the failure to the console. -/
theorem network_failure_abandons_operation (item : Render.ItemIn) (f : Bool)
    (productId : Int) (name : String) (price : Int) (image : String)
    (quantity : Int) (options : ItemOptions) :
    ((Render.getCartAPI FetchOutcome.netError).1 = []
      ∧ requestCount (Render.getCartAPI FetchOutcome.netError).2 = 1
      ∧ ((Render.getCartAPI FetchOutcome.netError).2.any
          Effect.isShowMessage) = false)
    ∧ (requestCount (Render.addToCartAPI item FetchOutcome.netError) = 1
      ∧ ((Render.addToCartAPI item FetchOutcome.netError).any
          Effect.isShowMessage) = true)
    ∧ (requestCount (Render.clearCartAPI true f FetchOutcome.netError) = 1
      ∧ ((Render.clearCartAPI true f FetchOutcome.netError).any
          Effect.isShowMessage) = true)
    ∧ ((Jwt.getCart (some "tok") FetchOutcome.netError).1 = []
      ∧ requestCount (Jwt.getCart (some "tok") FetchOutcome.netError).2 = 1
      ∧ ((Jwt.getCart (some "tok") FetchOutcome.netError).2.any
          Effect.isShowMessage) = true)
    ∧ ((Jwt.updateCartItem (some "tok") productId name price image quantity
          options FetchOutcome.netError).1 = false
      ∧ requestCount (Jwt.updateCartItem (some "tok") productId name price
          image quantity options FetchOutcome.netError).2 = 1
      ∧ ((Jwt.updateCartItem (some "tok") productId name price image
          quantity options FetchOutcome.netError).2.any
          Effect.isShowMessage) = true)
    ∧ ((Jwt.removeFromCart (some "tok") productId options
          FetchOutcome.netError).1 = false
      ∧ requestCount (Jwt.removeFromCart (some "tok") productId options
          FetchOutcome.netError).2 = 1
      ∧ ((Jwt.removeFromCart (some "tok") productId options
          FetchOutcome.netError).2.any Effect.isShowMessage) = true)
    ∧ ((Jwt.clearCart (some "tok") FetchOutcome.netError).1 = false
      ∧ requestCount (Jwt.clearCart (some "tok")
          FetchOutcome.netError).2 = 1
      ∧ ((Jwt.clearCart (some "tok") FetchOutcome.netError).2.any
          Effect.isShowMessage) = true) := by
  refine ⟨⟨rfl, rfl, rfl⟩, ⟨?_, ?_⟩, ⟨?_, ?_⟩, ⟨rfl, rfl, rfl⟩,
          ⟨?_, ?_, ?_⟩, ⟨rfl, rfl, rfl⟩, ⟨rfl, rfl, rfl⟩⟩
  · simp [Render.addToCartAPI, requestCount, Effect.isRequest]
  · simp [Render.addToCartAPI, Effect.isShowMessage]
  · simp [Render.clearCartAPI, requestCount, Effect.isRequest]
  · simp [Render.clearCartAPI, Effect.isShowMessage]
  · by_cases hq : quantity < 1 <;>
      simp [Jwt.updateCartItem, Jwt.removeFromCart, getAuthHeaders_tok, hq]
  · by_cases hq : quantity < 1 <;>
      simp [Jwt.updateCartItem, Jwt.removeFromCart, getAuthHeaders_tok, hq,
        requestCount, Effect.isRequest]
  · by_cases hq : quantity < 1 <;>
      simp [Jwt.updateCartItem, Jwt.removeFromCart, getAuthHeaders_tok, hq,
        Effect.isShowMessage]

/-- Claim C5: addToCart invoked without an explicit quantity defaults
the quantity to 1 and delegates to updateCartItem with the product id,
name, price, image, that quantity and the options; with a credential
present the first effect of the call is the upsert request whose
payload carries exactly those fields with quantity 1. -/
theorem addToCart_defaults_quantity_one (token : Option String)
    (product : Jwt.Product) (net : FetchOutcome) :
    Jwt.addToCartDefaults token product net
        = Jwt.updateCartItem token product.id product.name product.price
            product.image 1 emptyOptions net
    ∧ (Jwt.addToCartDefaults (some "tok") product net).2.head?
        = some (Effect.request HttpMethod.post "/api/cart"
            (ReqBody.upsertBody
              ⟨product.id, product.name, product.price, product.image, 1,
               none, none⟩)) := by
  refine ⟨rfl, ?_⟩
  cases net with
  | netError =>
      simp [Jwt.addToCartDefaults, Jwt.addToCart, Jwt.updateCartItem,
        getAuthHeaders_tok, emptyOptions]
  | response s b =>
    cases b with
    | none =>
        simp [Jwt.addToCartDefaults, Jwt.addToCart, Jwt.updateCartItem,
          getAuthHeaders_tok, emptyOptions]
    | some body =>
        by_cases hs : statusOk s <;>
          simp [Jwt.addToCartDefaults, Jwt.addToCart, Jwt.updateCartItem,
            getAuthHeaders_tok, emptyOptions, hs]

/-- removeFromCart dispatches the cartUpdated event exactly when it
returns true. -/
theorem removeFromCart_dispatch_iff_success (token : Option String)
    (productId : Int) (options : ItemOptions) (net : FetchOutcome) :
    ((Jwt.removeFromCart token productId options net).2.any
        Effect.isDispatch)
      = (Jwt.removeFromCart token productId options net).1 := by
  cases token with
  | none => rfl
  | some t =>
    cases net with
    | netError =>
        by_cases ht : (t == "") <;>
          simp [Jwt.removeFromCart, Jwt.getAuthHeaders, ht, Effect.isDispatch]
    | response s b =>
      cases b with
      | none =>
          by_cases ht : (t == "") <;>
            simp [Jwt.removeFromCart, Jwt.getAuthHeaders, ht,
              Effect.isDispatch]
      | some body =>
          by_cases ht : (t == "") <;> by_cases hs : statusOk s <;>
            simp [Jwt.removeFromCart, Jwt.getAuthHeaders, ht, hs,
              Effect.isDispatch]

/-- updateCartItem dispatches the cartUpdated event exactly when it
returns true. -/
theorem updateCartItem_dispatch_iff_success (token : Option String)
    (productId : Int) (name : String) (price : Int) (image : String)
    (quantity : Int) (options : ItemOptions) (net : FetchOutcome) :
    ((Jwt.updateCartItem token productId name price image quantity options
        net).2.any Effect.isDispatch)
      = (Jwt.updateCartItem token productId name price image quantity
          options net).1 := by
  cases token with
  | none => rfl
  | some t =>
    by_cases ht : (t == "")
    · simp [Jwt.updateCartItem, Jwt.getAuthHeaders, ht, Effect.isDispatch]
    · by_cases hq : quantity < 1
      · have hdel : Jwt.updateCartItem (some t) productId name price image
            quantity options net
              = Jwt.removeFromCart (some t) productId options net := by
          simp [Jwt.updateCartItem, Jwt.getAuthHeaders, ht, hq]
        rw [hdel]
        exact removeFromCart_dispatch_iff_success (some t) productId options
          net
      · cases net with
        | netError =>
            simp [Jwt.updateCartItem, Jwt.getAuthHeaders, ht, hq,
              Effect.isDispatch]
        | response s b =>
          cases b with
          | none =>
              simp [Jwt.updateCartItem, Jwt.getAuthHeaders, ht, hq,
                Effect.isDispatch]
          | some body =>
              by_cases hs : statusOk s <;>
                simp [Jwt.updateCartItem, Jwt.getAuthHeaders, ht, hq, hs,
                  Effect.isDispatch]

/-- clearCart dispatches the cartUpdated event exactly when it returns
true. -/
theorem clearCart_dispatch_iff_success (token : Option String)
    (net : FetchOutcome) :
    ((Jwt.clearCart token net).2.any Effect.isDispatch)
      = (Jwt.clearCart token net).1 := by
  cases token with
  | none => rfl
  | some t =>
    cases net with
    | netError =>
        by_cases ht : (t == "") <;>
          simp [Jwt.clearCart, Jwt.getAuthHeaders, ht, Effect.isDispatch]
    | response s b =>
      cases b with
      | none =>
          by_cases ht : (t == "") <;>
            simp [Jwt.clearCart, Jwt.getAuthHeaders, ht, Effect.isDispatch]
      | some body =>
          by_cases ht : (t == "") <;> by_cases hs : statusOk s <;>
            simp [Jwt.clearCart, Jwt.getAuthHeaders, ht, hs,
              Effect.isDispatch]

/-- Claim C6: each mutating cart operation of the JWT variant
(add/update, remove, clear) dispatches the cartUpdated broadcast exactly
when the operation succeeds (returns true); on every failure path no
such success broadcast occurs. -/
theorem mutations_broadcast_iff_success (token : Option String)
    (productId : Int) (name : String) (price : Int) (image : String)
    (quantity : Int) (options : ItemOptions) (net : FetchOutcome) :
    (((Jwt.updateCartItem token productId name price image quantity options
        net).2.any Effect.isDispatch)
      = (Jwt.updateCartItem token productId name price image quantity
          options net).1)
    ∧ (((Jwt.removeFromCart token productId options net).2.any
        Effect.isDispatch)
      = (Jwt.removeFromCart token productId options net).1)
    ∧ (((Jwt.clearCart token net).2.any Effect.isDispatch)
      = (Jwt.clearCart token net).1) :=
  ⟨updateCartItem_dispatch_iff_success token productId name price image
      quantity options net,
   removeFromCart_dispatch_iff_success token productId options net,
   clearCart_dispatch_iff_success token net⟩

/-- Claim C9: getCart yields a list on every execution path — missing
or empty credential, thrown exchange, unparseable body, non-2xx status,
and 2xx with or without an items field — characterized exactly: the
items array when present on a 2xx response, the empty list everywhere
else, never an exception (every throwing primitive is a FetchOutcome
constructor and every constructor is handled). -/
theorem getCart_returns_list_on_every_path (net : FetchOutcome) (s : Nat)
    (b : Option RespBody) :
    (Jwt.getCart none net).1 = []
    ∧ (Jwt.getCart (some "") net).1 = []
    ∧ (Jwt.getCart (some "tok") FetchOutcome.netError).1 = []
    ∧ (Jwt.getCart (some "tok") (FetchOutcome.response s b)).1
        = (match b with
           | none => []
           | some body => if statusOk s then body.items.getD [] else [])
    ∧ (Render.getCartAPI FetchOutcome.netError).1 = []
    ∧ (Render.getCartAPI (FetchOutcome.response s b)).1
        = (if statusOk s then
            (match b with
             | none => []
             | some body => body.items.getD [])
           else []) := by
  refine ⟨rfl, rfl, rfl, ?_, rfl, ?_⟩
  · cases b with
    | none => simp [Jwt.getCart, getAuthHeaders_tok]
    | some body =>
        by_cases hs : statusOk s <;>
          simp [Jwt.getCart, getAuthHeaders_tok, hs]
  · cases b with
    | none =>
        by_cases hs : statusOk s
        · simp [Render.getCartAPI, hs]
        · simp [Render.getCartAPI, hs]
          split <;> rfl
    | some body =>
        by_cases hs : statusOk s
        · simp [Render.getCartAPI, hs]
        · simp [Render.getCartAPI, hs]
          split <;> rfl
